import Mathlib

/-!
Shallow embedding of the DRL Kubernetes scheduler
(`src/drl-scheduler/scheduler/`) and proofs about its claims.

Conventions used throughout:

* Python floats are embedded as `ℚ`.  All arithmetic the scheduler performs
  on telemetry values is +, -, *, /, abs, min, max and comparisons, which ℚ
  models exactly; every value of ℚ is finite, so "returns a finite float"
  becomes "returns `some` value" in the `Option` (exception) monad.
* A Python expression that can raise (`KeyError` on `d[k]`, a float
  `ZeroDivisionError` on `x / y`) is embedded in `Option`: `none` models a
  raised exception.  `dict.get(k, default)` is embedded as a total lookup
  with the default.
* Resource quantity strings ("1500m", "2Gi", ...) are embedded as an
  inductive of (unit, numeral) pairs; the numeral is the already-parsed
  number, the unit handling follows the Python parsers verbatim.
* `numpy` reductions (`np.mean`, `np.std`) do not raise on the non-empty
  lists the code feeds them; they are embedded as total functions, with
  `np.std`'s square root taken as an explicit function parameter `sqrt`
  (its value is irrelevant to every claim below).
* Randomness (`random.random()`, `random.choice`, `random.sample`,
  `np.random.randn`) is embedded by passing the drawn values explicitly as
  oracle inputs.
* The torch networks and optimizer are the pluggable black boxes the spec
  describes: the policy / value forward passes and the gradient step are
  function parameters of the embedding.
-/

namespace DRLSched

/-- Python float division: raises `ZeroDivisionError` when the divisor is
zero, embedded as `none`. -/
def pydiv (a b : ℚ) : Option ℚ :=
  if b = 0 then none else some (a / b)

/-- `np.mean` over a list (total: numpy yields a warning, not an exception,
on the empty list; the code only calls it on non-empty lists). -/
def npMean (xs : List ℚ) : ℚ :=
  xs.sum / xs.length

/-- Population variance, the quantity under `np.std`'s square root. -/
def popVariance (xs : List ℚ) : ℚ :=
  ((xs.map (fun x => (x - npMean xs) ^ 2)).sum) / xs.length

/-- `np.std`: square root of the population variance.  The square root is
a parameter because ℚ has no square root; no claim depends on its value. -/
def npStd (sqrt : ℚ → ℚ) (xs : List ℚ) : ℚ :=
  sqrt (popVariance xs)

/-- Mean squared error with mean reduction (`nn.MSELoss()`). -/
def mse (pred target : List ℚ) : ℚ :=
  ((List.zipWith (fun a b => (a - b) ^ 2) pred target).sum) / pred.length

/-- `np.argmax`: index of the first occurrence of the maximum (0 on an
empty list, matching the use sites which guard against emptiness). -/
def argmaxAux : List ℚ → ℕ → ℕ → ℚ → ℕ
  | [], _, best, _ => best
  | x :: xs, i, best, bestVal =>
    if bestVal < x then argmaxAux xs (i + 1) i x
    else argmaxAux xs (i + 1) best bestVal

/-- `np.argmax` over a list. -/
def argmaxIdx : List ℚ → ℕ
  | [] => 0
  | x :: xs => argmaxAux xs 1 0 x

/-- `random.choice(l)` on a non-empty list, with the random draw supplied
as an index `k` (reduced modulo the length). -/
def randomChoice : List String → ℕ → String
  | [], _ => ""
  | x :: xs, k => (x :: xs).get ⟨k % (x :: xs).length, Nat.mod_lt _ (Nat.succ_pos _)⟩

theorem randomChoice_mem (l : List String) (k : ℕ) (h : l ≠ []) :
    randomChoice l k ∈ l := by
  cases l with
  | nil => exact absurd rfl h
  | cons x xs => exact List.get_mem _ _ _

/-! ### Resource quantity strings and their parsers -/

/-- A Kubernetes CPU quantity string: either `"<n>m"` (millicores) or a
plain numeral (cores).  The payload is the parsed numeral. -/
inductive CpuQty where
  | millis (n : ℚ)
  | cores (n : ℚ)
deriving DecidableEq

/-- `_parse_cpu` (identical in `k8s_scheduler.py`, `state_observer.py`,
`drl_agent.py`): `"<n>m"` divides by 1000, otherwise the plain value. -/
def parse_cpu : CpuQty → ℚ
  | .millis n => n / 1000
  | .cores n => n

/-- A Kubernetes memory quantity string: the suffix unit plus the parsed
numeral (`bytes` = no suffix). -/
inductive MemUnit where
  | Ki | Mi | Gi | Ti | K | M | G | T | bytes
deriving DecidableEq

/-- A memory quantity string. -/
structure MemQty where
  value : ℚ
  unit : MemUnit
deriving DecidableEq

/-- `_parse_memory` (identical in `k8s_scheduler.py` and
`state_observer.py`): multiply by the suffix's byte multiplier. -/
def parse_memory (m : MemQty) : ℚ :=
  match m.unit with
  | .Ki => m.value * 1024
  | .Mi => m.value * 1024 ^ 2
  | .Gi => m.value * 1024 ^ 3
  | .Ti => m.value * 1024 ^ 4
  | .K => m.value * 1000
  | .M => m.value * 1000 ^ 2
  | .G => m.value * 1000 ^ 3
  | .T => m.value * 1000 ^ 4
  | .bytes => m.value

/-! ### Workload (pod) and node data model -/

/-- `container.resources.requests`: each resource key optionally present
(`'cpu' in requests` / `'memory' in requests`). -/
structure Requests where
  cpu : Option CpuQty := none
  memory : Option MemQty := none
deriving DecidableEq

/-- A container; `requests = none` models
`not (container.resources and container.resources.requests)`. -/
structure Container where
  requests : Option Requests := none
deriving DecidableEq

/-- A node taint. -/
structure Taint where
  key : String
  value : String
  effect : String
deriving DecidableEq

/-- A pod toleration. -/
structure Toleration where
  key : String
  operator : String
  value : String
deriving DecidableEq

/-- The operator of a node-selector match expression. -/
inductive MatchOp where
  | opIn | opNotIn | opExists | opDoesNotExist
deriving DecidableEq

/-- One `match_expressions` entry of a node-selector term. -/
structure MatchExpr where
  key : String
  op : MatchOp
  values : Option (List String) := none
deriving DecidableEq

/-- A node-selector term (`term.preference`). -/
structure SelectorTerm where
  match_expressions : Option (List MatchExpr) := none
deriving DecidableEq

/-- A preferred scheduling term carrying a weight. -/
structure PrefTerm where
  weight : ℚ
  preference : SelectorTerm := {}
deriving DecidableEq

/-- `pod.spec.affinity.node_affinity`. -/
structure NodeAffinity where
  preferred : Option (List PrefTerm) := none
deriving DecidableEq

/-- `pod.spec.affinity.pod_affinity` / `pod_anti_affinity`: only the
preferred terms are read by the code. -/
structure PodAffinityRules where
  preferred : Option (List PrefTerm) := none
deriving DecidableEq

/-- `pod.spec.affinity`. -/
structure Affinity where
  node_affinity : Option NodeAffinity := none
  pod_affinity : Option PodAffinityRules := none
  pod_anti_affinity : Option PodAffinityRules := none
deriving DecidableEq

/-- The slice of `pod.spec` the scheduler reads.  `volumes` is a count of
volume entries: `_is_stateful` tests `hasattr(v, 'persistent_volume_claim')`,
which holds for every client volume object, so only non-emptiness matters. -/
structure Pod where
  containers : List Container
  affinity : Option Affinity := none
  tolerations : List Toleration := []
  node_selector : List (String × String) := []
  priority : ℚ := 0
  volumes : ℕ := 0
  topology_spread : Bool := false
deriving DecidableEq

/-- The per-node metrics dict built by
`ClusterStateObserver._collect_node_metrics`. -/
structure NodeMetrics where
  cpu_allocatable : ℚ
  memory_allocatable : ℚ
  cpu_used : ℚ
  memory_used : ℚ
  cpu_usage : ℚ
  memory_usage : ℚ
  pod_count : ℕ
  is_ready : Bool := true
  taints : List Taint := []
  labels : List (String × String) := []
  network_rx : ℚ := 0
  network_tx : ℚ := 0
  disk_usage : ℚ := 0
deriving DecidableEq

/-- The dict returned by `ClusterStateObserver.get_state()`: the node map
plus the cluster-level scalars (`state.get(key, 0)` defaults absent keys to
0, so the scalars are embedded directly with that default). -/
structure ClusterState where
  nodes : List (String × NodeMetrics) := []
  cluster_cpu_usage : ℚ := 0
  cluster_memory_usage : ℚ := 0
  total_pods : ℚ := 0
  total_nodes : ℚ := 0
  avg_network_latency : ℚ := 0
  cluster_load : ℚ := 0
deriving DecidableEq

/-- `state['nodes'].get(name)` / `state['nodes'][name]`. -/
def getNode (st : ClusterState) (name : String) : Option NodeMetrics :=
  st.nodes.lookup name

/-! ### Cluster State Observer (`state_observer.py`) -/

/-- CPU request of one container as summed by the observer and the
schedulers: `requests.get('cpu', '0')` parsed, 0 when requests absent. -/
def container_cpu_request (c : Container) : ℚ :=
  match c.requests with
  | none => 0
  | some r => parse_cpu (r.cpu.getD (.cores 0))

/-- Memory request of one container (bytes), `requests.get('memory', '0')`
parsed, 0 when requests absent. -/
def container_memory_request (c : Container) : ℚ :=
  match c.requests with
  | none => 0
  | some r => parse_memory (r.memory.getD ⟨0, .bytes⟩)

/-- Summed CPU requests over all pods placed on a node
(`_collect_node_metrics` inner loops). -/
def observed_cpu_used (pods : List Pod) : ℚ :=
  (pods.map (fun p => (p.containers.map container_cpu_request).sum)).sum

/-- Summed memory requests over all pods placed on a node. -/
def observed_memory_used (pods : List Pod) : ℚ :=
  (pods.map (fun p => (p.containers.map container_memory_request).sum)).sum

/-- The `NodeMetrics` entry `_collect_node_metrics` writes for one node:
`cpu_allocatable`/`memory_allocatable` are the parsed allocatable
quantities, `pods` the pods the API reports placed on the node. -/
def collect_node_metrics_entry (cpu_allocatable memory_allocatable : ℚ)
    (pods : List Pod) (ready : Bool) (taints : List Taint)
    (labels : List (String × String)) : NodeMetrics :=
  let cpu_used := observed_cpu_used pods
  let memory_used := observed_memory_used pods
  { cpu_allocatable := cpu_allocatable
    memory_allocatable := memory_allocatable
    cpu_used := cpu_used
    memory_used := memory_used
    cpu_usage := if cpu_allocatable > 0 then cpu_used / cpu_allocatable else 0
    memory_usage :=
      if memory_allocatable > 0 then memory_used / memory_allocatable else 0
    pod_count := pods.length
    is_ready := ready
    taints := taints
    labels := labels }

/-- The cluster-level aggregate dict `_calculate_cluster_metrics` builds. -/
structure ClusterAgg where
  total_cpu : ℚ
  total_memory : ℚ
  used_cpu : ℚ
  used_memory : ℚ
  cluster_cpu_usage : ℚ
  cluster_memory_usage : ℚ
  total_pods : ℕ
  total_nodes : ℕ
  ready_nodes : ℕ
  load_balance_score : ℚ
  avg_network_latency : ℚ := 0
  cluster_load : ℚ
deriving DecidableEq

/-- `ClusterStateObserver._calculate_cluster_metrics`: given the tracked
node-metrics map and the previously published aggregates, returns the
aggregates after one refresh.  With no tracked nodes the function returns
early and the previous aggregates stand (`none` = never yet published). -/
def calculate_cluster_metrics (node_metrics : List (String × NodeMetrics))
    (old : Option ClusterAgg) : Option ClusterAgg :=
  if node_metrics.isEmpty then old
  else
    let vals := node_metrics.map (·.2)
    let total_cpu := (vals.map (·.cpu_allocatable)).sum
    let total_memory := (vals.map (·.memory_allocatable)).sum
    let used_cpu := (vals.map (·.cpu_used)).sum
    let used_memory := (vals.map (·.memory_used)).sum
    let total_nodes := vals.length
    let load_balance_score :=
      if 0 < total_nodes then
        let avg_cpu := used_cpu / (total_nodes : ℚ)
        let cpu_variance :=
          ((vals.map (fun n => (n.cpu_used - avg_cpu) ^ 2)).sum) / (total_nodes : ℚ)
        1 / (1 + cpu_variance)
      else (0 : ℚ)
    some
      { total_cpu := total_cpu
        total_memory := total_memory
        used_cpu := used_cpu
        used_memory := used_memory
        cluster_cpu_usage := if total_cpu > 0 then used_cpu / total_cpu else 0
        cluster_memory_usage :=
          if total_memory > 0 then used_memory / total_memory else 0
        total_pods := (vals.map (·.pod_count)).sum
        total_nodes := total_nodes
        ready_nodes := (vals.filter (·.is_ready)).length
        load_balance_score := load_balance_score
        cluster_load := if total_cpu > 0 then used_cpu / total_cpu else 0 }

/-! ### Feasibility filters (`k8s_scheduler.py`) -/

/-- `node.status.allocatable` (quantity strings keyed by resource;
`.get('cpu', '0')` defaults are applied at the parse sites). -/
structure Allocatable where
  cpu : Option CpuQty := none
  memory : Option MemQty := none
deriving DecidableEq

/-- The slice of a Kubernetes node object the scheduler reads.
`conditions` is the list of (type, status) pairs of `node.status.conditions`;
`allocatable = none` models a falsy `node.status.allocatable`. -/
structure KNode where
  name : String
  conditions : List (String × String) := []
  taints : List Taint := []
  labels : List (String × String) := []
  allocatable : Option Allocatable := none
deriving DecidableEq

/-- `DRLScheduler._is_node_ready` (same code in `state_observer.py`). -/
def is_node_ready (n : KNode) : Bool :=
  n.conditions.any (fun c => c.1 == "Ready" && c.2 == "True")

/-- `DRLScheduler._check_tolerations`: every taint must be tolerated by an
exact key plus (`Exists` operator or equal value) match, unless its effect
is neither `NoSchedule` nor `NoExecute`. -/
def check_tolerations (pod : Pod) (node : KNode) : Bool :=
  node.taints.all (fun taint =>
    let tolerated := pod.tolerations.any (fun tol =>
      tol.key == taint.key &&
        (tol.operator == "Exists" || tol.value == taint.value))
    tolerated || !(taint.effect == "NoSchedule" || taint.effect == "NoExecute"))

/-- `DRLScheduler._check_resources`: each container's CPU/memory request is
checked on its own against allocatable minus the observer's used amount
(`node_metrics.get('cpu_used', 0)`); requests are never summed across the
containers of the workload. -/
def check_resources (pod : Pod) (node : KNode)
    (node_metrics : Option NodeMetrics) : Bool :=
  match node.allocatable with
  | none => false
  | some alloc =>
    let cpu_used := (node_metrics.map (·.cpu_used)).getD 0
    let memory_used := (node_metrics.map (·.memory_used)).getD 0
    pod.containers.all (fun c =>
      match c.requests with
      | none => true
      | some req =>
        (match req.cpu with
         | none => true
         | some q =>
           decide (parse_cpu q ≤ parse_cpu (alloc.cpu.getD (.cores 0)) - cpu_used)) &&
        (match req.memory with
         | none => true
         | some q =>
           decide (parse_memory q ≤
             parse_memory (alloc.memory.getD ⟨0, .bytes⟩) - memory_used)))

/-- `DRLScheduler._check_node_selectors`. -/
def check_node_selectors (pod : Pod) (node : KNode) : Bool :=
  pod.node_selector.all (fun kv => node.labels.lookup kv.1 == some kv.2)

/-- `DRLScheduler._get_eligible_nodes`: readiness, then tolerations (when
taint checking is enabled), then per-container resources, then selectors. -/
def get_eligible_nodes (enable_taints : Bool) (pod : Pod)
    (nodes : List KNode) (metrics : String → Option NodeMetrics) :
    List String :=
  nodes.filterMap (fun n =>
    if !is_node_ready n then none
    else if enable_taints && !check_tolerations pod n then none
    else if !check_resources pod n (metrics n.name) then none
    else if !check_node_selectors pod n then none
    else some n.name)

/-! ### Scheduler configuration (`config.py`), defaults as in the source -/

/-- The slice of `SchedulerConfig` the embedded components read. -/
structure SchedulerConfig where
  batch_size : ℕ := 64
  gamma : ℚ := 99 / 100
  max_nodes : ℕ := 100
  max_pods : ℕ := 1000
  epsilon_start : ℚ := 1
  epsilon_end : ℚ := 1 / 100
  epsilon_decay : ℚ := 995 / 1000
  training_interval : ℕ := 100
  enable_taints : Bool := true
deriving DecidableEq

/-! ### DRL agent (`drl_agent.py`) -/

/-- `DRLAgent._get_pod_cpu_request` (also
`RewardCalculator._get_pod_cpu`, identical code): summed CPU requests in
cores. -/
def get_pod_cpu_request (pod : Pod) : ℚ :=
  (pod.containers.map container_cpu_request).sum

/-- One container's memory request in GB per
`DRLAgent._get_pod_memory_request`: only `Gi`/`Mi`/`Ki` suffixes
contribute (any other form, including the `'0'` default, adds nothing). -/
def agent_container_memory_gb (c : Container) : ℚ :=
  match c.requests with
  | none => 0
  | some r =>
    match r.memory with
    | none => 0
    | some m =>
      match m.unit with
      | .Gi => m.value
      | .Mi => m.value / 1024
      | .Ki => m.value / 1024 ^ 2
      | _ => 0

/-- `DRLAgent._get_pod_memory_request` (GB). -/
def get_pod_memory_request_gb (pod : Pod) : ℚ :=
  (pod.containers.map agent_container_memory_gb).sum

/-- The 10 features `_encode_state` emits per eligible node.  A node
missing from the state map yields the all-zero block (`{}.get(key, 0)` for
every key, falsy `is_ready`, empty taint list). -/
def node_features (cfg : SchedulerConfig) (st : ClusterState)
    (node_name : String) : List ℚ :=
  match getNode st node_name with
  | none => List.replicate 10 0
  | some nm =>
    [nm.cpu_usage, nm.memory_usage, (nm.pod_count : ℚ) / (cfg.max_pods : ℚ),
     nm.network_rx, nm.network_tx, nm.disk_usage,
     nm.cpu_allocatable, nm.memory_allocatable,
     if nm.is_ready then 1 else 0,
     (nm.taints.length : ℚ) / 10]

/-- The 8 workload features of `_encode_state`. -/
def pod_features (pod : Pod) : List ℚ :=
  [get_pod_cpu_request pod, get_pod_memory_request_gb pod,
   pod.priority / 1000000,
   if pod.affinity.isSome then 1 else 0,
   if pod.tolerations.isEmpty then 0 else 1,
   if pod.node_selector.isEmpty then 0 else 1,
   (pod.containers.length : ℚ),
   if pod.volumes ≠ 0 then 1 else 0]

/-- The 6 cluster features of `_encode_state`. -/
def cluster_features (cfg : SchedulerConfig) (st : ClusterState) : List ℚ :=
  [st.cluster_cpu_usage, st.cluster_memory_usage,
   st.total_pods / (cfg.max_pods : ℚ), st.total_nodes / (cfg.max_nodes : ℚ),
   st.avg_network_latency, st.cluster_load]

/-- `DRLAgent._encode_state`.  Each eligible node contributes exactly 10
features, so the `while len(features) < 10 * max_nodes` loop, which appends
10 zeros per iteration, pads with exactly
`10 * (max_nodes - len(eligible))` zeros when there are fewer eligible
nodes than `max_nodes`, and appends nothing otherwise (truncated `ℕ`
subtraction matches). -/
def encode_state (cfg : SchedulerConfig) (pod : Pod)
    (eligible : List String) (st : ClusterState) : List ℚ :=
  let features := (eligible.map (node_features cfg st)).flatten
  let padded := features ++ List.replicate (10 * (cfg.max_nodes - eligible.length)) 0
  padded ++ pod_features pod ++ cluster_features cfg st

/-- `DRLAgent._select_best_node`: `probs` is the policy network's output on
the encoded state (the network is the spec's pluggable black box, so its
output vector is an oracle input here); `choiceIdx` feeds the
`random.choice` fallback. -/
def select_best_node (probs : List ℚ) (eligible : List String)
    (choiceIdx : ℕ) : String :=
  let valid_mask :=
    (List.range probs.length).map (fun i => if i < eligible.length then (1 : ℚ) else 0)
  let masked := List.zipWith (· * ·) probs valid_mask
  if masked.sum > 0 then
    let normalized := masked.map (fun x => x / masked.sum)
    let idx := argmaxIdx normalized
    if h : idx < eligible.length then eligible.get ⟨idx, h⟩
    else randomChoice eligible choiceIdx
  else randomChoice eligible choiceIdx

/-- `DRLAgent.select_node`: returns the selection together with the updated
epsilon.  `r` is the `random.random()` draw, `choiceIdx` the
`random.choice` draw, `probs` the policy network's output on
`encode_state cfg pod eligible st`.  An empty eligible list returns
immediately: no selection and no epsilon decay. -/
def select_node (cfg : SchedulerConfig) (pod : Pod) (eligible : List String)
    (st : ClusterState) (epsilon : ℚ) (r : ℚ) (choiceIdx : ℕ)
    (probs : List ℚ) : Option String × ℚ :=
  if eligible.isEmpty then (none, epsilon)
  else
    let selected :=
      if r < epsilon then randomChoice eligible choiceIdx
      else select_best_node probs eligible choiceIdx
    (some selected, max cfg.epsilon_end (epsilon * cfg.epsilon_decay))

/-- The epsilon value after `n` successive `select_node` calls on
non-empty eligible sets, starting from `epsilon_start`: each call applies
`epsilon = max(epsilon_end, epsilon * epsilon_decay)`. -/
def decay_iter (cfg : SchedulerConfig) : ℕ → ℚ
  | 0 => cfg.epsilon_start
  | n + 1 => max cfg.epsilon_end (decay_iter cfg n * cfg.epsilon_decay)

/-- The `Experience` container class. -/
structure Experience where
  state : ClusterState
  action : String
  reward : ℚ
  next_state : ClusterState
  done : Bool
deriving DecidableEq

/-- The agent's mutable state: replay buffer, epsilon, the two networks'
parameters and the optimizer state (as opaque parameter vectors — the
spec treats the scoring functions as pluggable black boxes), and the step
counter. -/
structure AgentState where
  memory : List Experience := []
  epsilon : ℚ := 1
  policyParams : List ℚ := []
  valueParams : List ℚ := []
  optimState : List ℚ := []
  total_steps : ℕ := 0
deriving DecidableEq

/-- `DRLAgent.store_experience`: appends a non-terminal experience (deque
with `maxlen=10000` evicts oldest-first) and bumps the step counter. -/
def store_experience (s : AgentState) (st : ClusterState) (action : String)
    (reward : ℚ) (next_st : ClusterState) : AgentState :=
  let mem := s.memory ++ [Experience.mk st action reward next_st false]
  { s with
    memory := if 10000 < mem.length then mem.drop (mem.length - 10000) else mem
    total_steps := s.total_steps + 1 }

/-- The metrics dict `train` returns in its non-skipped case. -/
structure TrainMetrics where
  loss : ℚ
  value_loss : ℚ
  policy_loss : ℚ
  avg_reward : ℚ
  epsilon : ℚ
deriving DecidableEq

/-- `zip` of three lists under a ternary function. -/
def zip3With (f : ℚ → ℚ → ℚ → ℚ) : List ℚ → List ℚ → List ℚ → List ℚ
  | a :: as, b :: bs, c :: cs => f a b c :: zip3With f as bs cs
  | _, _, _ => []

/-- The random draws `train` makes: the `random.sample(memory, batch_size)`
result and, per batch index, the two `np.random.randn(state_dim)` vectors
the code substitutes for the stored snapshots ("Encode states (simplified
for training)" — the stored `exp.state` / `exp.next_state` are never
encoded). -/
structure TrainRand where
  batch : List Experience
  stateVec : ℕ → List ℚ
  nextVec : ℕ → List ℚ

/-- `DRLAgent.train`.  `V`/`P` are the value/policy networks' forward
passes applied to the current parameters, `log` models `torch.log`, and
`optStep` the backward pass plus `optimizer.step()` (a black box mutating
the parameters; nothing below depends on what it computes).  Returns the
agent state after the call and the metrics (`none` = the `{}` returned
when the buffer holds fewer than `batch_size` experiences). -/
def train (cfg : SchedulerConfig) (V : List ℚ → List ℚ → ℚ)
    (P : List ℚ → List ℚ → List ℚ) (log : ℚ → ℚ)
    (optStep : AgentState → AgentState) (s : AgentState) (rnd : TrainRand) :
    AgentState × Option TrainMetrics :=
  if s.memory.length < cfg.batch_size then (s, none)
  else
    let batch := rnd.batch
    let n := batch.length
    let states := (List.range n).map rnd.stateVec
    let next_states := (List.range n).map rnd.nextVec
    let rewards := batch.map (·.reward)
    let dones := batch.map (fun e => if e.done then (1 : ℚ) else 0)
    let next_values := next_states.map (V s.valueParams)
    let targets :=
      zip3With (fun r v d => r + cfg.gamma * v * (1 - d)) rewards next_values dones
    let current_values := states.map (V s.valueParams)
    let value_loss := mse current_values targets
    let action_probs := states.map (P s.policyParams)
    let advantages := List.zipWith (fun t c => t - c) targets current_values
    let policy_loss :=
      -(((List.zipWith (fun probs adv => log (npMean probs) * adv)
          action_probs advantages).sum) / (n : ℚ))
    let total_loss := value_loss + policy_loss
    (optStep s,
     some { loss := total_loss, value_loss := value_loss,
            policy_loss := policy_loss, avg_reward := npMean rewards,
            epsilon := s.epsilon })

/-! ### Reward calculator (`reward_calculator.py`)

Exceptions (`ZeroDivisionError` from float division, `KeyError` from
`state['nodes'][selected_node]`) are modelled by `none`. -/

/-- One container's memory request in bytes per
`RewardCalculator._get_pod_memory`: only `Gi`/`Mi`/`Ki` suffixes
contribute. -/
def reward_container_memory (c : Container) : ℚ :=
  match c.requests with
  | none => 0
  | some r =>
    match r.memory with
    | none => 0
    | some m =>
      match m.unit with
      | .Gi => m.value * 1024 ^ 3
      | .Mi => m.value * 1024 ^ 2
      | .Ki => m.value * 1024
      | _ => 0

/-- `RewardCalculator._get_pod_memory` (bytes). -/
def reward_get_pod_memory (pod : Pod) : ℚ :=
  (pod.containers.map reward_container_memory).sum

/-- `RewardCalculator._resource_utilization_reward`.  A missing (or empty)
node-metrics entry returns 0; otherwise the two utilization projections
divide by the allocatable amounts and the fit score divides by the
available amounts — each such division raises when its divisor is zero. -/
def resource_utilization_reward (pod : Pod) (selected_node : String)
    (st : ClusterState) : Option ℚ :=
  match getNode st selected_node with
  | none => some 0
  | some nm => do
    let pod_cpu := get_pod_cpu_request pod
    let pod_memory := reward_get_pod_memory pod
    let node_cpu_available := nm.cpu_allocatable - nm.cpu_used
    let node_memory_available := nm.memory_allocatable - nm.memory_used
    let cpu_util_after ← pydiv (nm.cpu_used + pod_cpu) nm.cpu_allocatable
    let memory_util_after ← pydiv (nm.memory_used + pod_memory) nm.memory_allocatable
    let cpu_deviation := |cpu_util_after - 0.75|
    let memory_deviation := |memory_util_after - 0.75|
    let utilization_score := 1 - (cpu_deviation + memory_deviation) / 2
    let utilization_score :=
      if cpu_util_after > 0.95 ∨ memory_util_after > 0.95 then
        utilization_score * 0.5
      else utilization_score
    let fit_cpu ← pydiv pod_cpu node_cpu_available
    let fit_mem ← pydiv pod_memory node_memory_available
    let fit_score := 1 - |fit_cpu - fit_mem|
    some (utilization_score * 0.7 + fit_score * 0.3)

/-- `RewardCalculator._load_balance_reward`.  With fewer than two tracked
nodes it returns 1 immediately; otherwise `nodes[selected_node]` raises
`KeyError` when the chosen target has no entry. -/
def load_balance_reward (sqrt : ℚ → ℚ) (selected_node : String)
    (st : ClusterState) : Option ℚ :=
  if st.nodes.length < 2 then some 1
  else
    let cpu_usages := st.nodes.map (·.2.cpu_usage)
    let memory_usages := st.nodes.map (·.2.memory_usage)
    let cpu_std := npStd sqrt cpu_usages
    let memory_std := npStd sqrt memory_usages
    let avg_cpu := npMean cpu_usages
    let avg_memory := npMean memory_usages
    match getNode st selected_node with
    | none => none
    | some nm =>
      let cpu_balance_score := 1 - |nm.cpu_usage - avg_cpu|
      let memory_balance_score := 1 - |nm.memory_usage - avg_memory|
      let balance_score := (cpu_balance_score + memory_balance_score) / 2
      let variance_score := 1 - (cpu_std + memory_std) / 2
      some (balance_score * 0.6 + variance_score * 0.4)

/-- `RewardCalculator._latency_reward`: 0.8 without affinity preferences,
otherwise the average of the preferred pod-affinity/anti-affinity term
weights (each divided by 100); never raises. -/
def latency_reward (pod : Pod) : Option ℚ :=
  match pod.affinity with
  | none => some 0.8
  | some aff =>
    let affinity_terms := (aff.pod_affinity.map (fun pa => pa.preferred.getD [])).getD []
    let anti_terms := (aff.pod_anti_affinity.map (fun pa => pa.preferred.getD [])).getD []
    let terms := affinity_terms ++ anti_terms
    let reward := (terms.map (fun t => t.weight / 100)).sum
    if 0 < terms.length then some (reward / (terms.length : ℚ))
    else some 0.8

/-- `RewardCalculator._check_node_selector_term`. -/
def check_node_selector_term (term : SelectorTerm)
    (node_labels : List (String × String)) : Bool :=
  (term.match_expressions.getD []).all (fun expr =>
    let node_value := node_labels.lookup expr.key
    let values := expr.values.getD []
    match expr.op with
    | .opIn =>
      match node_value with
      | some s => values.contains s
      | none => false
    | .opNotIn =>
      !(match node_value with
        | some s => values.contains s
        | none => false)
    | .opExists => node_value.isSome
    | .opDoesNotExist => !node_value.isSome)

/-- `RewardCalculator._affinity_reward`: base 1.0, half of each matched
preferred node-affinity term weight, a 0.2 topology-spread bonus, clamped
to 2 then halved.  `state['nodes'][selected_node]['labels']` raises when
node affinity is present and the chosen target has no entry. -/
def affinity_reward (pod : Pod) (selected_node : String)
    (st : ClusterState) : Option ℚ := do
  let base ←
    match pod.affinity with
    | none => some (1 : ℚ)
    | some aff =>
      match aff.node_affinity with
      | none => some (1 : ℚ)
      | some na =>
        match getNode st selected_node with
        | none => none
        | some nm =>
          let terms := na.preferred.getD []
          let matched := terms.filter
            (fun t => check_node_selector_term t.preference nm.labels)
          some (1 + (matched.map (fun t => t.weight / 100 * 0.5)).sum)
  let bumped := if pod.topology_spread then base + 0.2 else base
  some (min bumped 2 / 2)

/-- `RewardCalculator._energy_efficiency_reward`: 0.5 for a missing
node-metrics entry; otherwise a consolidation blend; never raises. -/
def energy_efficiency_reward (selected_node : String) (st : ClusterState) :
    Option ℚ :=
  match getNode st selected_node with
  | none => some 0.5
  | some nm =>
    let current_usage := nm.cpu_usage
    let consolidation_score :=
      if current_usage > 0.1 then min (current_usage * 1.5) 1 else 0.3
    let pod_count_score := min ((nm.pod_count : ℚ) / 20) 1
    some (consolidation_score * 0.7 + pod_count_score * 0.3)

/-- The five reward weights (`config.reward_weights`), source defaults. -/
structure RewardWeights where
  resource_utilization : ℚ := 0.3
  load_balance : ℚ := 0.25
  latency : ℚ := 0.25
  affinity : ℚ := 0.1
  energy : ℚ := 0.1
deriving DecidableEq

/-- `RewardCalculator.calculate_reward`: the weighted combination of the
five components; any component raising makes the whole call raise. -/
def calculate_reward (w : RewardWeights) (sqrt : ℚ → ℚ) (pod : Pod)
    (selected_node : String) (st : ClusterState) : Option ℚ := do
  let resourceR ← resource_utilization_reward pod selected_node st
  let loadBalanceR ← load_balance_reward sqrt selected_node st
  let latencyR ← latency_reward pod
  let affinityR ← affinity_reward pod selected_node st
  let energyR ← energy_efficiency_reward selected_node st
  some (w.resource_utilization * resourceR + w.load_balance * loadBalanceR +
    w.latency * latencyR + w.affinity * affinityR + w.energy * energyR)

/-! ### Scheduling orchestrator bookkeeping (`k8s_scheduler.py`) -/

/-- The scheduler's counters exposed on the `/status` surface. -/
structure Counters where
  scheduled_pods : ℕ := 0
  failed_schedules : ℕ := 0
deriving DecidableEq

/-- `DRLScheduler._bind_pod_to_node`: on a successful POST of the binding
it increments `scheduled_pods`; on failure it increments
`failed_schedules` and re-raises.  The boolean result is "did not raise". -/
def bind_pod_to_node (c : Counters) (bindOk : Bool) : Counters × Bool :=
  if bindOk then ({ c with scheduled_pods := c.scheduled_pods + 1 }, true)
  else ({ c with failed_schedules := c.failed_schedules + 1 }, false)

/-- The counter effect of one `DRLScheduler._schedule_pod` pass: empty
eligible set or no selection record a failure; otherwise the bind runs and
on success `_schedule_pod` increments `scheduled_pods` again (on a raise
the `except` block increments `failed_schedules` again). -/
def schedule_pod_counters (c : Counters) (eligible : List String)
    (sel : Option String) (bindOk : Bool) : Counters :=
  if eligible.isEmpty then
    { c with failed_schedules := c.failed_schedules + 1 }
  else
    match sel with
    | none => { c with failed_schedules := c.failed_schedules + 1 }
    | some _ =>
      let (c1, ok) := bind_pod_to_node c bindOk
      if ok then { c1 with scheduled_pods := c1.scheduled_pods + 1 }
      else { c1 with failed_schedules := c1.failed_schedules + 1 }

/-- The bind decision of one `_schedule_pod` pass: the node the binding is
POSTed for, or `none` when no bind is attempted (empty eligible set, or no
selection from the agent). -/
def schedule_pod_bind (cfg : SchedulerConfig) (pod : Pod)
    (eligible : List String) (st : ClusterState) (epsilon : ℚ) (r : ℚ)
    (choiceIdx : ℕ) (probs : List ℚ) : Option String :=
  if eligible.isEmpty then none
  else (select_node cfg pod eligible st epsilon r choiceIdx probs).1

/-! ### Concrete sample data used by witnesses and counterexamples -/

/-- A one-container pod requesting 1 CPU, no affinity/selector/tolerations. -/
def podPlain : Pod :=
  { containers := [{ requests := some { cpu := some (.cores 1) } }] }

/-- Sample node metrics: 4 allocatable cores, 2 used; 8 GiB allocatable,
1 GiB used. -/
def nmA : NodeMetrics :=
  { cpu_allocatable := 4
    memory_allocatable := 8 * 1024 ^ 3
    cpu_used := 2
    memory_used := 1024 ^ 3
    cpu_usage := 1 / 2
    memory_usage := 1 / 8
    pod_count := 3 }

/-- A snapshot tracking one node. -/
def stOne : ClusterState := { nodes := [("node-a", nmA)] }

/-- A snapshot tracking two nodes. -/
def stTwo : ClusterState := { nodes := [("n1", nmA), ("n2", nmA)] }

/-- A configuration with negative epsilon bounds: it satisfies the
hypotheses claim C5 states (decay in [0,1], start ≥ end) but not the
amended nonnegativity condition. -/
def cfgNeg : SchedulerConfig :=
  { epsilon_start := -1 / 2, epsilon_end := -1, epsilon_decay := 1 / 2 }

/-- A ready, untainted node with 2 allocatable cores and 8 Gi memory. -/
def nodeR : KNode :=
  { name := "node-1"
    conditions := [("Ready", "True")]
    allocatable := some { cpu := some (.cores 2), memory := some ⟨8, .Gi⟩ } }

/-- A pod with two containers, each requesting 1500m CPU (1.5 cores):
individually both fit on 2 available cores, their sum (3 cores) does not. -/
def podTwoContainers : Pod :=
  { containers :=
      [{ requests := some { cpu := some (.millis 1500) } },
       { requests := some { cpu := some (.millis 1500) } }] }

/-- A one-container pod requesting 2 CPU cores — more than the 1-core
allocatable of the node it is observed on. -/
def podBig : Pod :=
  { containers := [{ requests := some { cpu := some (.cores 2) } }] }

/-- A configuration whose maximum node count is smaller than the eligible
lists a larger cluster can produce. -/
def cfgTiny : SchedulerConfig := { max_nodes := 1 }

/-- A configuration training on single-experience batches with `gamma = 1`. -/
def cfgB : SchedulerConfig := { batch_size := 1, gamma := 1 }

/-- A stored experience with empty snapshots. -/
def expE : Experience :=
  { state := {}, action := "node-a", reward := 0, next_state := {}, done := false }

/-- A stored experience identical to `expE` in reward and continuation
flag but with different stored snapshots. -/
def expE2 : Experience :=
  { state := stOne, action := "node-a", reward := 0, next_state := stTwo,
    done := false }

/-- An agent holding exactly one experience. -/
def sAgentB : AgentState := { memory := [expE] }

/-- Previously published cluster aggregates with a non-zero load-balance
score. -/
def aggPrev : ClusterAgg :=
  { total_cpu := 4
    total_memory := 8
    used_cpu := 1
    used_memory := 1
    cluster_cpu_usage := 1 / 4
    cluster_memory_usage := 1 / 8
    total_pods := 1
    total_nodes := 1
    ready_nodes := 1
    load_balance_score := 1
    cluster_load := 1 / 4 }

/-! ### Helper lemmas -/

theorem select_best_node_mem (probs : List ℚ) (eligible : List String)
    (k : ℕ) (h : eligible ≠ []) :
    select_best_node probs eligible k ∈ eligible := by
  unfold select_best_node
  dsimp only
  split
  · split
    · exact List.get_mem _ _ _
    · exact randomChoice_mem _ _ h
  · exact randomChoice_mem _ _ h

theorem select_node_mem (cfg : SchedulerConfig) (pod : Pod)
    (eligible : List String) (st : ClusterState) (epsilon r : ℚ) (k : ℕ)
    (probs : List ℚ) (n : String)
    (hn : (select_node cfg pod eligible st epsilon r k probs).1 = some n) :
    n ∈ eligible := by
  by_cases he : eligible.isEmpty
  · simp [select_node, he] at hn
  · have hne : eligible ≠ [] := by
      simpa [List.isEmpty_iff] using he
    rw [select_node, if_neg he] at hn
    by_cases hr : r < epsilon
    · simp only [if_pos hr, Option.some.injEq] at hn
      exact hn ▸ randomChoice_mem _ _ hne
    · simp only [if_neg hr, Option.some.injEq] at hn
      exact hn ▸ select_best_node_mem _ _ _ hne

/-! ### C1 -/

/-- C1: a bind is only ever attempted for a member of the eligible set:
`select_node` on an empty eligible list returns `none` (and leaves
epsilon untouched), in which case `_schedule_pod` attempts no bind; on a
non-empty list every selection it can return — exploration, masked-argmax
exploitation, or the degenerate-distribution fallback — is a member of the
eligible list, so the node the bind is POSTed for is always eligible. -/
theorem select_node_feasibility (cfg : SchedulerConfig) (pod : Pod)
    (st : ClusterState) (epsilon r : ℚ) (k : ℕ) (probs : List ℚ)
    (eligible : List String) :
    (eligible = [] →
      select_node cfg pod eligible st epsilon r k probs = (none, epsilon) ∧
      schedule_pod_bind cfg pod eligible st epsilon r k probs = none) ∧
    (∀ n, (select_node cfg pod eligible st epsilon r k probs).1 = some n →
      n ∈ eligible) ∧
    (∀ n, schedule_pod_bind cfg pod eligible st epsilon r k probs = some n →
      n ∈ eligible) := by
  refine ⟨fun he => ?_, fun n hn => select_node_mem _ _ _ _ _ _ _ _ _ hn,
    fun n hn => ?_⟩
  · subst he
    constructor <;> simp [select_node, schedule_pod_bind]
  · by_cases he : eligible.isEmpty
    · simp [schedule_pod_bind, he] at hn
    · rw [schedule_pod_bind, if_neg he] at hn
      exact select_node_mem _ _ _ _ _ _ _ _ _ hn

/-- Witness for C1 at a concrete input: the bind decision for the pod is
`"a"`, which the theorem places in the eligible list `["a", "b"]`. -/
theorem select_node_feasibility_witness : "a" ∈ ["a", "b"] :=
  (select_node_feasibility {} podPlain {} 1 0 0 [] ["a", "b"]).2.2 "a"
    (by decide)

/-! ### C5 -/

/-- C5 counterexample: with `epsilon_decay = 1/2 ∈ [0, 1]` and
`epsilon_start = -1/2 ≥ epsilon_end = -1` — exactly the hypotheses the
claim states — one selection on a non-empty eligible set updates epsilon
from `-1/2` to `max(-1, -1/4) = -1/4 > -1/2`, so epsilon is not
monotonically non-increasing under those hypotheses alone. -/
theorem epsilon_decay_not_monotone :
    0 ≤ cfgNeg.epsilon_decay ∧ cfgNeg.epsilon_decay ≤ 1 ∧
    cfgNeg.epsilon_end ≤ cfgNeg.epsilon_start ∧
    cfgNeg.epsilon_start <
      (select_node cfgNeg podPlain ["a"] {} cfgNeg.epsilon_start 0 0 []).2 := by
  refine ⟨by norm_num [cfgNeg], by norm_num [cfgNeg], by norm_num [cfgNeg], ?_⟩
  have h1 : (select_node cfgNeg podPlain ["a"] {} cfgNeg.epsilon_start 0 0 []).2
      = max cfgNeg.epsilon_end (cfgNeg.epsilon_start * cfgNeg.epsilon_decay) := by
    simp [select_node]
  have h2 : cfgNeg.epsilon_start * cfgNeg.epsilon_decay = -(1 / 4) := by
    norm_num [cfgNeg]
  have h3 : cfgNeg.epsilon_end ≤ -(1 / 4) := by norm_num [cfgNeg]
  rw [h1, h2, max_eq_right h3]
  norm_num [cfgNeg]

/-- C5 (amended): with the additional hypothesis `0 ≤ epsilon_end`, every
selection on a non-empty eligible set updates epsilon to
`max(epsilon_end, epsilon * epsilon_decay)`, and the epsilon trace across
successive selections never drops below `epsilon_end` and is monotonically
non-increasing. -/
theorem epsilon_decay_props (cfg : SchedulerConfig)
    (h0 : 0 ≤ cfg.epsilon_decay) (h1 : cfg.epsilon_decay ≤ 1)
    (h2 : 0 ≤ cfg.epsilon_end) (h3 : cfg.epsilon_end ≤ cfg.epsilon_start) :
    (∀ (pod : Pod) (st : ClusterState) (eps r : ℚ) (k : ℕ)
      (probs : List ℚ) (eligible : List String), eligible ≠ [] →
      (select_node cfg pod eligible st eps r k probs).2 =
        max cfg.epsilon_end (eps * cfg.epsilon_decay)) ∧
    (∀ n, cfg.epsilon_end ≤ decay_iter cfg n) ∧
    (∀ n, decay_iter cfg (n + 1) ≤ decay_iter cfg n) := by
  have hlow : ∀ n, cfg.epsilon_end ≤ decay_iter cfg n := by
    intro n
    cases n with
    | zero => exact h3
    | succ m => exact le_max_left _ _
  refine ⟨fun pod st eps r k probs eligible hne => ?_, hlow, fun n => ?_⟩
  · cases eligible with
    | nil => exact absurd rfl hne
    | cons a l => simp [select_node]
  · have hnn : 0 ≤ decay_iter cfg n := le_trans h2 (hlow n)
    have hmul : decay_iter cfg n * cfg.epsilon_decay ≤ decay_iter cfg n :=
      mul_le_of_le_one_right hnn h1
    exact max_le (hlow n) hmul

/-- Witness for C5 (amended) at the source's default configuration. -/
theorem epsilon_decay_props_witness :
    decay_iter {} 1 ≤ decay_iter {} 0 :=
  (epsilon_decay_props {} (by norm_num) (by norm_num) (by norm_num)
    (by norm_num)).2.2 0

/-! ### C6 -/

/-- C6: `train()` with fewer than `batch_size` stored experiences returns
the skipped result (the empty metrics dict, embedded as `none`) and the
agent state unchanged — replay buffer, epsilon, policy/value/optimizer
parameters and the step counter are all untouched, for every possible
network forward pass and optimizer step. -/
theorem train_skip (cfg : SchedulerConfig) (V : List ℚ → List ℚ → ℚ)
    (P : List ℚ → List ℚ → List ℚ) (log : ℚ → ℚ)
    (optStep : AgentState → AgentState) (s : AgentState) (rnd : TrainRand)
    (h : s.memory.length < cfg.batch_size) :
    train cfg V P log optStep s rnd = (s, none) := by
  simp [train, h]

/-- Witness for C6: a fresh agent (empty buffer) under the default batch
size of 64. -/
theorem train_skip_witness :
    ({} : AgentState).memory.length < ({} : SchedulerConfig).batch_size ∧
    train {} (fun _ _ => 0) (fun _ _ => []) (fun x => x) (fun s => s) {}
        ⟨[], fun _ => [], fun _ => []⟩ = ({}, none) :=
  ⟨by decide, train_skip _ _ _ _ _ _ _ (by decide)⟩

/-! ### C9 -/

/-- C9: evaluating the success path at a concrete input shows the
`scheduledCount` bug: starting from zero counters, one successfully bound
pod leaves `scheduled_pods = 2`, because `_bind_pod_to_node` increments it
on the successful POST and `_schedule_pod` increments it again — not the
increase of exactly one the spec describes. -/
theorem scheduled_count_double_increment :
    schedule_pod_counters { scheduled_pods := 0, failed_schedules := 0 }
        ["node-1"] (some "node-1") true =
      { scheduled_pods := 2, failed_schedules := 0 } := by
  decide

/-! ### C10 -/

/-- C10: the resource filter checks each container independently, never
the sum: the two-container pod requesting 1.5 cores per container passes
`_check_resources` against a node with 2 available cores and is reported
eligible, although the summed request (3 cores) exceeds the available 2;
each individual request does fit, which is all the code checks. -/
theorem check_resources_per_container :
    check_resources podTwoContainers nodeR none = true ∧
    get_eligible_nodes true podTwoContainers [nodeR] (fun _ => none) =
      ["node-1"] ∧
    2 ≤ podTwoContainers.containers.length ∧
    ((podTwoContainers.containers.map container_cpu_request).sum >
      parse_cpu (CpuQty.cores 2) - 0) ∧
    (podTwoContainers.containers.all
      (fun c =>
        decide (container_cpu_request c ≤ parse_cpu (CpuQty.cores 2) - 0))) =
      true := by
  norm_num [check_resources, get_eligible_nodes, is_node_ready,
    check_tolerations, check_node_selectors, podTwoContainers, nodeR,
    container_cpu_request, parse_cpu, parse_memory, List.filterMap_cons,
    List.filterMap_nil]

/-! ### C4 -/

/-- C4 counterexample: a node with 1 allocatable core observed carrying a
pod that requests 2 cores gets `cpu_usage = 2 > 1` — the ratio is not
clamped to [0, 1] even though the allocatable amount is positive. -/
theorem node_usage_ratio_above_one :
    (collect_node_metrics_entry 1 1 [podBig] true [] []).cpu_allocatable > 0 ∧
    1 < (collect_node_metrics_entry 1 1 [podBig] true [] []).cpu_usage := by
  norm_num [collect_node_metrics_entry, observed_cpu_used,
    observed_memory_used, podBig, container_cpu_request,
    container_memory_request, parse_cpu]

/-- C4 (amended): after a refresh, a node's usage ratios equal the summed
requests divided by the allocatable amount when the latter is positive —
hence are nonnegative (for nonnegative observed request sums) and lie in
[0, 1] exactly when the summed requests do not exceed the allocatable
amount — and equal 0 when the allocatable amount is not positive. -/
theorem usage_ratio_bounds (ca ma : ℚ) (pods : List Pod) (ready : Bool)
    (taints : List Taint) (labels : List (String × String))
    (hc : 0 ≤ observed_cpu_used pods) (hm : 0 ≤ observed_memory_used pods) :
    (0 < ca →
      0 ≤ (collect_node_metrics_entry ca ma pods ready taints labels).cpu_usage ∧
      ((collect_node_metrics_entry ca ma pods ready taints labels).cpu_usage ≤ 1 ↔
        observed_cpu_used pods ≤ ca)) ∧
    (¬0 < ca →
      (collect_node_metrics_entry ca ma pods ready taints labels).cpu_usage = 0) ∧
    (0 < ma →
      0 ≤ (collect_node_metrics_entry ca ma pods ready taints labels).memory_usage ∧
      ((collect_node_metrics_entry ca ma pods ready taints labels).memory_usage ≤ 1 ↔
        observed_memory_used pods ≤ ma)) ∧
    (¬0 < ma →
      (collect_node_metrics_entry ca ma pods ready taints labels).memory_usage = 0) := by
  refine ⟨fun h => ?_, fun h => ?_, fun h => ?_, fun h => ?_⟩
  · simp only [collect_node_metrics_entry, if_pos h]
    exact ⟨div_nonneg hc h.le, div_le_one h⟩
  · simp [collect_node_metrics_entry, h]
  · simp only [collect_node_metrics_entry, if_pos h]
    exact ⟨div_nonneg hm h.le, div_le_one h⟩
  · simp [collect_node_metrics_entry, h]

/-- Witness for C4 (amended): the observed node with 4 allocatable cores
carrying the 1-core pod has a nonnegative CPU usage ratio. -/
theorem usage_ratio_bounds_witness :
    0 ≤ (collect_node_metrics_entry 4 8 [podPlain] true [] []).cpu_usage :=
  ((usage_ratio_bounds 4 8 [podPlain] true [] []
      (by norm_num [observed_cpu_used, podPlain, container_cpu_request,
        parse_cpu])
      (by norm_num [observed_memory_used, podPlain,
        container_memory_request, parse_memory])).1
    (by norm_num)).1

/-! ### C7 -/

theorem node_features_length (cfg : SchedulerConfig) (st : ClusterState)
    (name : String) : (node_features cfg st name).length = 10 := by
  unfold node_features
  cases getNode st name <;> simp

theorem flatten_node_features_length (cfg : SchedulerConfig)
    (st : ClusterState) (eligible : List String) :
    ((eligible.map (node_features cfg st)).flatten).length =
      10 * eligible.length := by
  induction eligible with
  | nil => simp
  | cons a l ih =>
    simp only [List.map_cons, List.flatten_cons, List.length_append, ih,
      node_features_length, List.length_cons]
    ring

/-- C7 counterexample: with `max_nodes = 1` and two eligible nodes the
encoding has 34 elements, not the claimed `10 * max_nodes + 8 + 6 = 24`:
the node loop never truncates to `max_nodes` blocks. -/
theorem encode_state_dimension_overflow :
    (encode_state cfgTiny podPlain ["a", "b"] {}).length = 34 ∧
    (34 : ℕ) ≠ 10 * cfgTiny.max_nodes + 8 + 6 := by
  decide

/-- C7 (amended): the encoding is the eligible nodes' 10-feature blocks in
iteration order, zero-padding up to `max_nodes` blocks, then 8 workload
and 6 cluster features; its length is `10 * max(|eligible|, max_nodes) +
8 + 6`, which equals the claimed `10 * max_nodes + 8 + 6` exactly when at
most `max_nodes` nodes are eligible (with more, nothing is truncated and
the vector is longer). -/
theorem encode_state_dimension (cfg : SchedulerConfig) (pod : Pod)
    (eligible : List String) (st : ClusterState) :
    (encode_state cfg pod eligible st).length =
      10 * max eligible.length cfg.max_nodes + 8 + 6 ∧
    (eligible.length ≤ cfg.max_nodes →
      (encode_state cfg pod eligible st).length = 10 * cfg.max_nodes + 8 + 6) ∧
    (encode_state cfg pod eligible st).take (10 * eligible.length) =
      (eligible.map (node_features cfg st)).flatten := by
  have hflat := flatten_node_features_length cfg st eligible
  have hlen : (encode_state cfg pod eligible st).length =
      10 * eligible.length + 10 * (cfg.max_nodes - eligible.length) + 8 + 6 := by
    simp [encode_state, hflat, pod_features, cluster_features]
    ring
  refine ⟨?_, fun hle => ?_, ?_⟩
  · rw [hlen]; omega
  · rw [hlen]; omega
  · show ((((eligible.map (node_features cfg st)).flatten ++
        List.replicate (10 * (cfg.max_nodes - eligible.length)) 0) ++
        pod_features pod) ++ cluster_features cfg st).take
          (10 * eligible.length) =
      (eligible.map (node_features cfg st)).flatten
    rw [List.append_assoc, List.append_assoc, ← hflat]
    exact List.take_left _ _

/-- Witness for C7 (amended): one eligible node under the default
100-node configuration yields the fixed 1014-dimensional encoding. -/
theorem encode_state_dimension_witness :
    (encode_state {} podPlain ["node-a"] stOne).length =
      10 * ({} : SchedulerConfig).max_nodes + 8 + 6 :=
  (encode_state_dimension {} podPlain ["node-a"] stOne).2.1 (by decide)

/-! ### C8 -/

theorem sum_sq_dev (xs : List ℚ) (m : ℚ) :
    (xs.map (fun x => (x - m) ^ 2)).sum =
      (xs.map (fun x => x ^ 2)).sum - 2 * m * xs.sum + xs.length * m ^ 2 := by
  induction xs with
  | nil => simp
  | cons a t ih =>
    simp only [List.map_cons, List.sum_cons, ih, List.length_cons]
    push_cast
    ring

theorem popVariance_moment (xs : List ℚ) (h : xs ≠ []) :
    popVariance xs =
      (xs.map (fun x => x ^ 2)).sum / xs.length - npMean xs ^ 2 := by
  have hl : 0 < xs.length := List.length_pos.mpr h
  have hn : (xs.length : ℚ) ≠ 0 := by exact_mod_cast hl.ne'
  unfold popVariance npMean
  rw [sum_sq_dev]
  field_simp
  ring

/-- C8 counterexample: a refresh that sees zero nodes does not set the
load-balance score to 0 — `_calculate_cluster_metrics` returns before
writing anything, so the previously published aggregates (here with score
1) stand, and on a fresh observer no aggregate exists at all; the
`else 0.0` branch of the score computation is unreachable. -/
theorem zero_nodes_score_unchanged :
    calculate_cluster_metrics [] (some aggPrev) = some aggPrev ∧
    aggPrev.load_balance_score ≠ 0 ∧
    calculate_cluster_metrics [] none = none := by
  refine ⟨by simp [calculate_cluster_metrics], by norm_num [aggPrev],
    by simp [calculate_cluster_metrics]⟩

/-- C8 (amended): every refresh with at least one tracked node publishes
aggregates whose load-balance score is `1 / (1 + variance(per-node used
CPU))` with the population variance (equivalently, the second moment
minus the squared mean); with zero tracked nodes the refresh leaves the
previous aggregates unchanged instead of setting the score to 0. -/
theorem load_balance_score_spec (node_metrics : List (String × NodeMetrics))
    (old : Option ClusterAgg) (h : node_metrics ≠ []) :
    (∃ agg, calculate_cluster_metrics node_metrics old = some agg ∧
      agg.load_balance_score =
        1 / (1 + popVariance (node_metrics.map (fun p => p.2.cpu_used))) ∧
      agg.load_balance_score =
        1 / (1 +
          (((node_metrics.map (fun p => p.2.cpu_used ^ 2)).sum) /
              node_metrics.length -
            npMean (node_metrics.map (fun p => p.2.cpu_used)) ^ 2))) ∧
    calculate_cluster_metrics [] old = old := by
  refine ⟨?_, by simp [calculate_cluster_metrics]⟩
  have hne : ¬node_metrics.isEmpty := by
    simpa [List.isEmpty_iff] using h
  have hmapne : node_metrics.map (fun p => p.2.cpu_used) ≠ [] := by
    simpa using h
  have hmom := popVariance_moment _ hmapne
  rw [calculate_cluster_metrics, if_neg hne]
  refine ⟨_, rfl, ?_, ?_⟩
  · have hpos : 0 < (node_metrics.map (·.2)).length := by
      simpa [List.length_pos] using h
    simp only [if_pos hpos]
    simp [popVariance, npMean, List.map_map, Function.comp_def]
  · have hpos : 0 < (node_metrics.map (·.2)).length := by
      simpa [List.length_pos] using h
    simp only [if_pos hpos]
    rw [show ((node_metrics.map (fun p => p.2.cpu_used ^ 2)).sum /
        (node_metrics.length : ℚ) -
        npMean (node_metrics.map (fun p => p.2.cpu_used)) ^ 2) =
        popVariance (node_metrics.map (fun p => p.2.cpu_used)) from ?_]
    · simp [popVariance, npMean, List.map_map, Function.comp_def]
    · rw [hmom]
      simp [List.map_map, Function.comp_def]

/-- Witness for C8 (amended): the two-node snapshot (both nodes using 2
cores, variance 0) publishes aggregates. -/
theorem load_balance_score_spec_witness :
    calculate_cluster_metrics [] (some aggPrev) = some aggPrev :=
  (load_balance_score_spec [("n1", nmA)] (some aggPrev) (by decide)).2

/-! ### C2 -/

theorem resource_reward_some (pod : Pod) (t : String) (st : ClusterState)
    (nm : NodeMetrics) (hn : getNode st t = some nm)
    (h1 : nm.cpu_allocatable ≠ 0) (h2 : nm.memory_allocatable ≠ 0)
    (h3 : nm.cpu_allocatable - nm.cpu_used ≠ 0)
    (h4 : nm.memory_allocatable - nm.memory_used ≠ 0) :
    (resource_utilization_reward pod t st).isSome = true := by
  unfold resource_utilization_reward
  rw [hn]
  simp [pydiv, h1, h2, h3, h4]

theorem load_balance_reward_some (sqrt : ℚ → ℚ) (t : String)
    (st : ClusterState) (nm : NodeMetrics) (hn : getNode st t = some nm) :
    (load_balance_reward sqrt t st).isSome = true := by
  unfold load_balance_reward
  split
  · rfl
  · rw [hn]
    rfl

theorem latency_reward_some (pod : Pod) :
    (latency_reward pod).isSome = true := by
  unfold latency_reward
  cases pod.affinity with
  | none => rfl
  | some aff =>
    dsimp only
    split <;> rfl

theorem affinity_reward_some (pod : Pod) (t : String) (st : ClusterState)
    (nm : NodeMetrics) (hn : getNode st t = some nm) :
    (affinity_reward pod t st).isSome = true := by
  unfold affinity_reward
  cases pod.affinity with
  | none => rfl
  | some aff =>
    cases hna : aff.node_affinity with
    | none => simp [hna]
    | some na => simp [hna, hn]

theorem energy_reward_some (t : String) (st : ClusterState) :
    (energy_efficiency_reward t st).isSome = true := by
  unfold energy_efficiency_reward
  cases getNode st t <;> rfl

/-- C2 counterexample: a snapshot tracking two nodes, neither of which is
the chosen target, makes `calculate_reward` raise: the resource component
returns the neutral 0 for the missing entry, but the load-balance
component's `nodes[selected_node]` lookup raises `KeyError`, so the
function does not return a float at all. -/
theorem calculate_reward_raises :
    calculate_reward {} (fun _ => 0) podPlain "n3" stTwo = none := by
  decide

/-- C2 (amended): `calculate_reward` returns a (finite) value whenever the
chosen target is present in the snapshot's node map with non-zero CPU and
memory allocatable and non-zero available (allocatable minus used) CPU and
memory.  It is not exception-free in general: a missing node entry raises
in the load-balance component whenever two or more nodes are tracked (and
in the affinity component when node affinity is present), and a present
entry with zero allocatable or zero available CPU/memory raises in the
resource component; only the resource (0), energy (0.5) and latency
components have the claimed neutral defaults. -/
theorem calculate_reward_total (w : RewardWeights) (sqrt : ℚ → ℚ)
    (pod : Pod) (t : String) (st : ClusterState) (nm : NodeMetrics)
    (hn : getNode st t = some nm)
    (h1 : nm.cpu_allocatable ≠ 0) (h2 : nm.memory_allocatable ≠ 0)
    (h3 : nm.cpu_allocatable - nm.cpu_used ≠ 0)
    (h4 : nm.memory_allocatable - nm.memory_used ≠ 0) :
    ∃ r, calculate_reward w sqrt pod t st = some r := by
  obtain ⟨a, ha⟩ := Option.isSome_iff_exists.mp
    (resource_reward_some pod t st nm hn h1 h2 h3 h4)
  obtain ⟨b, hb⟩ := Option.isSome_iff_exists.mp
    (load_balance_reward_some sqrt t st nm hn)
  obtain ⟨c, hc⟩ := Option.isSome_iff_exists.mp (latency_reward_some pod)
  obtain ⟨d, hd⟩ := Option.isSome_iff_exists.mp
    (affinity_reward_some pod t st nm hn)
  obtain ⟨e, he⟩ := Option.isSome_iff_exists.mp (energy_reward_some t st)
  refine ⟨w.resource_utilization * a + w.load_balance * b + w.latency * c +
    w.affinity * d + w.energy * e, ?_⟩
  simp [calculate_reward, ha, hb, hc, hd, he]

/-- Witness for C2 (amended): the one-node snapshot with the chosen target
present and free capacity yields a reward value. -/
theorem calculate_reward_total_witness :
    ∃ r, calculate_reward {} (fun _ => 0) podPlain "node-a" stOne = some r :=
  calculate_reward_total {} (fun _ => 0) podPlain "node-a" stOne nmA
    (by rfl) (by norm_num [nmA]) (by norm_num [nmA])
    (by norm_num [nmA]) (by norm_num [nmA])

/-! ### C3 -/

/-- C3 counterexample: two `train()` runs over the *same* sampled
experience (same stored reward, snapshots and continuation flag) but
different `np.random.randn` draws for the "next state" produce different
value targets and losses: with `gamma = 1`, the value network summing its
input, and the stored experience's reward 0, the run whose random next
vector is `[0]` reports `value_loss = 0` while the run with `[1]` reports
`value_loss = 1`.  The value target therefore is not
`reward + gamma * V(stored next snapshot)` — it is computed from a fresh
random vector and ignores the stored snapshot entirely. -/
theorem train_target_uses_random_vectors :
    (train cfgB (fun _ v => v.sum) (fun _ _ => [1]) (fun _ => 0)
        (fun s => s) sAgentB ⟨[expE], fun _ => [0], fun _ => [0]⟩).2 ≠
    (train cfgB (fun _ v => v.sum) (fun _ _ => [1]) (fun _ => 0)
        (fun s => s) sAgentB ⟨[expE], fun _ => [0], fun _ => [1]⟩).2 := by
  norm_num [train, cfgB, sAgentB, expE, mse, npMean, zip3With,
    TrainMetrics.mk.injEq]

/-- C3 (amended): `train()` samples the batch without replacement
(`random.sample`) and computes a one-step target
`reward + gamma * V(x) * (1 - done)` and an MSE value loss — but the
vectors `x` fed to the value network are freshly drawn random placeholder
vectors, not encodings of the stored snapshots: the training result
depends on the sampled experiences only through their reward and
continuation-flag fields, so two batches agreeing on rewards and flags
while differing arbitrarily in their stored decision-time and next
snapshots (and chosen targets) produce identical training metrics. -/
theorem train_metrics_ignore_snapshots (cfg : SchedulerConfig)
    (V : List ℚ → List ℚ → ℚ) (P : List ℚ → List ℚ → List ℚ) (log : ℚ → ℚ)
    (optStep : AgentState → AgentState) (s : AgentState)
    (b1 b2 : List Experience) (sv nv : ℕ → List ℚ)
    (hr : b1.map (·.reward) = b2.map (·.reward))
    (hd : b1.map (·.done) = b2.map (·.done)) :
    (train cfg V P log optStep s ⟨b1, sv, nv⟩).2 =
      (train cfg V P log optStep s ⟨b2, sv, nv⟩).2 := by
  have hlen : b1.length = b2.length := by
    have h := congrArg List.length hr
    simpa using h
  have hdq : b1.map (fun e => if e.done then (1 : ℚ) else 0) =
      b2.map (fun e => if e.done then (1 : ℚ) else 0) := by
    have key : ∀ l : List Experience,
        l.map (fun e => if e.done then (1 : ℚ) else 0) =
          (l.map (·.done)).map (fun d => if d then (1 : ℚ) else 0) := by
      intro l
      rw [List.map_map]
      rfl
    rw [key, key, hd]
  by_cases hb : s.memory.length < cfg.batch_size
  · simp [train, hb]
  · simp only [train, if_neg hb]
    rw [hlen, hr, hdq]

/-- Witness for C3 (amended): batches `[expE]` and `[expE2]` differ in
their stored snapshots yet yield the same training metrics. -/
theorem train_metrics_ignore_snapshots_witness :
    (train cfgB (fun _ v => v.sum) (fun _ _ => [1]) (fun _ => 0)
        (fun s => s) sAgentB ⟨[expE], fun _ => [0], fun _ => [0]⟩).2 =
    (train cfgB (fun _ v => v.sum) (fun _ _ => [1]) (fun _ => 0)
        (fun s => s) sAgentB ⟨[expE2], fun _ => [0], fun _ => [0]⟩).2 :=
  train_metrics_ignore_snapshots cfgB (fun _ v => v.sum) (fun _ _ => [1])
    (fun _ => 0) (fun s => s) sAgentB [expE] [expE2] (fun _ => [0])
    (fun _ => [0]) rfl rfl

end DRLSched
